import Mathlib

/-!
Verification of the rear-view-radar decoding module of the pycycling fork
(src/pycycling/rear_view_radar.py) against its natural-language specification.

The module contains:
* the RadarMeasurement namedtuple with FOUR fields: threat_id, level, speed,
  distance (rear_view_radar.py lines 25-30);
* BrytonGardiaRadar (variant B, bit-packed 8-byte payload, lines 50-102);
* GarminVariaRadar (variant A, byte-aligned 1+3i payload, lines 105-146);
* RearViewRadarService facade (lines 149-160).

Payload bytes are modelled as List Nat (each element a byte value 0-255;
bounds are taken as hypotheses where a theorem needs them).
-/

/-- The RadarMeasurement namedtuple (rear_view_radar.py lines 25-30):
fields threat_id, level, speed, distance, in that positional order. -/
structure RadarMeasurement where
  threat_id : Option Nat
  level : Nat
  speed : Nat
  distance : Nat
deriving DecidableEq, Repr

/-! ## Variant B: BrytonGardiaRadar bit-field extraction (lines 75-92)

Each helper below is one local variable of
BrytonGardiaRadar._parse_radar_measurement, translated literally. -/

/-- Line 75: threat_1_level = (threat_level & 3) -/
def threat_1_level (threat_level : Nat) : Nat := threat_level &&& 3

/-- Line 76: threat_2_level = (threat_level >> 2) & 3 -/
def threat_2_level (threat_level : Nat) : Nat := (threat_level >>> 2) &&& 3

/-- Line 77: threat_3_level = (threat_level >> 4) & 3 (computed, only printed) -/
def threat_3_level (threat_level : Nat) : Nat := (threat_level >>> 4) &&& 3

/-- Line 78: threat_4_level = (threat_level >> 6) & 3 (computed, only printed) -/
def threat_4_level (threat_level : Nat) : Nat := (threat_level >>> 6) &&& 3

/-- Line 82: threat_1_distance = (tmp_threat_distance_1 >> 0) & 63 -/
def threat_1_distance (d1 : Nat) : Nat := (d1 >>> 0) &&& 63

/-- Line 83: threat_2_distance =
((tmp_threat_distance_1 >> 6) & 3) | (((tmp_threat_distance_2 >> 0) & 15) << 2) -/
def threat_2_distance (d1 d2 : Nat) : Nat :=
  ((d1 >>> 6) &&& 3) ||| (((d2 >>> 0) &&& 15) <<< 2)

/-- Line 84: threat_3_distance =
((tmp_threat_distance_2 >> 4) & 15) | (((tmp_threat_distance_3 >> 0) & 3) << 4) -/
def threat_3_distance (d2 d3 : Nat) : Nat :=
  ((d2 >>> 4) &&& 15) ||| (((d3 >>> 0) &&& 3) <<< 4)

/-- Line 85: threat_4_distance = (tmp_threat_distance_3 >> 2) & 63 -/
def threat_4_distance (d3 : Nat) : Nat := (d3 >>> 2) &&& 63

/-- Line 89: threat_1_speed = (threat_speed_1 >> 0) & 15 -/
def threat_1_speed (s1 : Nat) : Nat := (s1 >>> 0) &&& 15

/-- Line 90: threat_2_speed = (threat_speed_1 >> 4) & 15 -/
def threat_2_speed (s1 : Nat) : Nat := (s1 >>> 4) &&& 15

/-- Line 91: threat_3_speed = (threat_speed_2 >> 0) & 15 (computed, only printed) -/
def threat_3_speed (s2 : Nat) : Nat := (s2 >>> 0) &&& 15

/-- Line 92: threat_4_speed = (threat_speed_2 >> 4) & 15 (computed, only printed) -/
def threat_4_speed (s2 : Nat) : Nat := (s2 >>> 4) &&& 15

/-- The error raised by struct.unpack_from when the buffer is too short
for the 8-byte format "BBB3BBB" (struct.error). -/
inductive StructError where
  | insufficientData
deriving DecidableEq, Repr

/-- BrytonGardiaRadar._parse_radar_measurement (lines 70-102).

struct.unpack_from("BBB3BBB", data) reads the first 8 bytes
[page, threat_level, threat_side, dist1, dist2, dist3, speed1, speed2]
starting at offset 0; it raises struct.error when len(data) < 8 and
ignores any trailing bytes when len(data) > 8.

Slots 3 and 4 are extracted (see the helper defs above) but appear only in
print statements (lines 80, 87, 94); the scaled values
distance * 3.125 and speed * 3.04 * 3.6 likewise appear only in the print
statements on lines 87 and 94. The records appended on lines 96-101 are
RadarMeasurement(None, threat_n_level, threat_n_speed, threat_n_distance)
with the RAW (unscaled) speed and distance, for slot 1 then slot 2, each
guarded by its level being > 0. -/
def brytonParse (data : List Nat) : Except StructError (List RadarMeasurement) :=
  if data.length < 8 then Except.error StructError.insufficientData
  else
    Except.ok
      ((if 0 < threat_1_level (data.getD 1 0) then
          [⟨none, threat_1_level (data.getD 1 0), threat_1_speed (data.getD 6 0),
            threat_1_distance (data.getD 3 0)⟩]
        else []) ++
       (if 0 < threat_2_level (data.getD 1 0) then
          [⟨none, threat_2_level (data.getD 1 0), threat_2_speed (data.getD 6 0),
            threat_2_distance (data.getD 3 0) (data.getD 4 0)⟩]
        else []))

/-! ## Variant A: GarminVariaRadar (lines 105-146) -/

/-- Possible outcomes of GarminVariaRadar._parse_radar_measurement when applied
to a payload. `records` is a returned list, `noData` is the Python None
returned from the except IndexError branch (line 145), `typeError` is an
uncaught TypeError escaping the function. -/
inductive GarminResult where
  | records (rs : List RadarMeasurement)
  | noData
  | typeError
deriving DecidableEq, Repr

/-- GarminVariaRadar._parse_radar_measurement (lines 125-146), applied to a
payload `data`.

The loop `for i in range(1, len(data), 3)` starts at i = 1. Its first
iteration (when any) decides the whole result, because appending a record
executes RadarMeasurement(threat_id, speed, distance) — THREE positional
arguments for the FOUR-field namedtuple declared on lines 25-30 — which
raises TypeError. TypeError is not an IndexError, so the except clause on
line 143 does not catch it and it escapes the function; the loop therefore
never completes an iteration and never recurses.

Branches, in Python evaluation order for i = 1:
* 1 >= len(data): the range is empty, return the still-empty list;
* data[2] or data[3] out of range: IndexError, caught, return None;
* all of data[1], data[2], data[3] readable: the constructor call raises
  TypeError (uncaught). -/
def garminParse (data : List Nat) : GarminResult :=
  if 1 < data.length then
    if 2 < data.length then
      if 3 < data.length then
        GarminResult.typeError
      else GarminResult.noData
    else GarminResult.noData
  else GarminResult.records []

/-- Observable outcome of one delivery through
GarminVariaRadar._radar_measurement_notification_handler (lines 121-123). -/
inductive DispatchResult where
  | noCall
  | observerCalled (arg : GarminResult)
  | raisedTypeError
deriving DecidableEq, Repr

/-- GarminVariaRadar._radar_measurement_notification_handler (lines 121-123)
for one delivered payload.

When a callback is registered the handler evaluates
self._parse_radar_measurement(data). _parse_radar_measurement is declared
on line 125 WITHOUT a self parameter, so this bound-method call passes two
arguments (the instance and the payload) to a one-parameter function:
Python raises TypeError while evaluating the callback argument, before the
callback can be invoked. When no callback is registered nothing happens. -/
def garminNotificationDispatch (observerRegistered : Bool) (_data : List Nat) :
    DispatchResult :=
  if observerRegistered then DispatchResult.raisedTypeError
  else DispatchResult.noCall

/-! ## Service facade (lines 149-160) -/

/-- The two concrete BaseRadar subclasses. -/
inductive RadarVariant where
  | brytonGardia
  | garminVaria
deriving DecidableEq, Repr

/-- The RADAR_CHARACTERISTIC_ID class constant of each variant
(lines 51 and 106). -/
def RADAR_CHARACTERISTIC_ID : RadarVariant → String
  | RadarVariant.brytonGardia => "f3641401-00b0-4240-ba50-05ca45bf8abc"
  | RadarVariant.garminVaria => "6a4e3203-667b-11e3-949a-0800200c9a66"

/-- RearViewRadarService holds the radar variant chosen at construction
(line 151: self._radar = radar(client)). -/
structure RearViewRadarService where
  radar : RadarVariant
deriving DecidableEq, Repr

/-- RearViewRadarService.__init__ (line 150): the radar parameter defaults to
GarminVariaRadar. -/
def mkRearViewRadarService
    (radar : RadarVariant := RadarVariant.garminVaria) : RearViewRadarService :=
  ⟨radar⟩

/-- enable_radar_measurement_notifications (lines 153-154) delegates to the
bound variant, which subscribes its own RADAR_CHARACTERISTIC_ID
(lines 57-58 and 112-113); this gives the characteristic identifier the
subscription acts on. -/
def RearViewRadarService.enableCharacteristic (s : RearViewRadarService) : String :=
  RADAR_CHARACTERISTIC_ID s.radar

/-- disable_radar_measurement_notifications (lines 156-157) unsubscribes the
same characteristic identifier (lines 60-61 and 115-116). -/
def RearViewRadarService.disableCharacteristic (s : RearViewRadarService) : String :=
  RADAR_CHARACTERISTIC_ID s.radar

/-! ## Helper lemmas about the bit operations used by the decoder -/

lemma and_three_eq_mod (x : Nat) : x &&& 3 = x % 4 := by
  have h := Nat.and_pow_two_sub_one_eq_mod x 2
  norm_num at h
  exact h

lemma and_fifteen_eq_mod (x : Nat) : x &&& 15 = x % 16 := by
  have h := Nat.and_pow_two_sub_one_eq_mod x 4
  norm_num at h
  exact h

lemma and_sixtythree_eq_mod (x : Nat) : x &&& 63 = x % 64 := by
  have h := Nat.and_pow_two_sub_one_eq_mod x 6
  norm_num at h
  exact h

lemma shiftRight_two_eq_div (x : Nat) : x >>> 2 = x / 4 := by
  have h := Nat.shiftRight_eq_div_pow x 2
  norm_num at h
  exact h

lemma shiftRight_four_eq_div (x : Nat) : x >>> 4 = x / 16 := by
  have h := Nat.shiftRight_eq_div_pow x 4
  norm_num at h
  exact h

lemma shiftRight_six_eq_div (x : Nat) : x >>> 6 = x / 64 := by
  have h := Nat.shiftRight_eq_div_pow x 6
  norm_num at h
  exact h

lemma lor_shiftLeft_two_eq_add : ∀ a < 4, ∀ b < 16, a ||| b <<< 2 = a + b * 4 := by
  decide

lemma lor_shiftLeft_four_eq_add : ∀ a < 16, ∀ b < 4, a ||| b <<< 4 = a + b * 16 := by
  decide

/-! ## Claim theorems -/

/-- Claim C1 (code bug): the byte-aligned decoder does NOT return a record for
the payload [0, 5, 10, 20]. The record append executes
RadarMeasurement(threat_id, speed, distance), three positional arguments for
the four-field namedtuple, so the decoder raises an uncaught TypeError on
every payload containing a complete 3-byte group, and in particular never
returns a records list for this payload. -/
theorem garminParse_complete_group_typeError :
    garminParse [0, 5, 10, 20] = GarminResult.typeError ∧
      ∀ rs : List RadarMeasurement,
        garminParse [0, 5, 10, 20] ≠ GarminResult.records rs := by
  refine ⟨by decide, ?_⟩
  intro rs h
  simp [garminParse] at h

/-- Claim C6 (code bug): the underrun sentinel works as claimed on a payload
of length 2 — the decoder returns the None sentinel, which is distinct from
the empty list — but the claim fails for longer truncated payloads such as
[0, 0, 0, 0, 0] (length 5, final group incomplete): there the first complete
3-byte group triggers the record-constructor TypeError before the truncated
group is reached, so the decoder raises instead of returning the sentinel. -/
theorem garminParse_underrun_sentinel :
    garminParse [0, 0] = GarminResult.noData ∧
      GarminResult.noData ≠ GarminResult.records [] ∧
      garminParse [0, 0, 0, 0, 0] = GarminResult.typeError := by
  decide

/-- Claim C4 (code bug): on a delivery whose payload [0, 0] would make the
decoder signal the "no data yet" sentinel, the session dispatch with an
observer registered does not silently drop the delivery: the bound-method
call raises TypeError (the decoder is declared without a self parameter), so
the dispatch outcome is an exception, not a silent no-call. -/
theorem garmin_dispatch_underrun_raises :
    garminParse [0, 0] = GarminResult.noData ∧
      garminNotificationDispatch true [0, 0] = DispatchResult.raisedTypeError ∧
      garminNotificationDispatch true [0, 0] ≠ DispatchResult.noCall := by
  decide

/-- Claim C5, counterexample: a 9-byte payload is not of the expected length 8,
yet the bit-packed decoder does not raise — struct.unpack_from ignores
trailing bytes — refuting "raises if and only if the payload is not exactly
8 bytes". -/
theorem brytonParse_nine_byte_no_fault_cex :
    brytonParse [0, 0, 0, 0, 0, 0, 0, 0, 0] = Except.ok [] ∧
      ([0, 0, 0, 0, 0, 0, 0, 0, 0] : List Nat).length ≠ 8 :=
  ⟨rfl, by decide⟩

/-- Claim C5, amended: the bit-packed decoder raises a decode fault, propagated
to its caller, if and only if the payload is SHORTER than 8 bytes; payloads
of 8 or more bytes are decoded from their first 8 bytes with any trailing
bytes ignored. -/
theorem brytonParse_fault_iff_short (data : List Nat) :
    brytonParse data = Except.error StructError.insufficientData ↔
      data.length < 8 := by
  constructor
  · intro h
    by_contra hc
    rw [brytonParse, if_neg hc] at h
    exact absurd h (by simp)
  · intro h
    rw [brytonParse, if_pos h]

/-- Claim C9: the bit-packed decoder is deterministic — two invocations on the
same payload bytes return the same result. -/
theorem brytonParse_deterministic (a b : List Nat) (h : a = b) :
    brytonParse a = brytonParse b := by
  rw [h]

/-- Witness for C9 at the all-zero 8-byte payload. -/
theorem brytonParse_deterministic_witness :
    brytonParse [0, 0, 0, 0, 0, 0, 0, 0] = brytonParse [0, 0, 0, 0, 0, 0, 0, 0] :=
  brytonParse_deterministic [0, 0, 0, 0, 0, 0, 0, 0] [0, 0, 0, 0, 0, 0, 0, 0] rfl

/-- Claim C10: the facade constructed without an explicit radar argument binds
the GarminVariaRadar variant, so enabling and disabling notifications act on
that variant's RADAR_CHARACTERISTIC_ID. -/
theorem facade_default_variant_garmin :
    (mkRearViewRadarService).radar = RadarVariant.garminVaria ∧
      (mkRearViewRadarService).enableCharacteristic =
        "6a4e3203-667b-11e3-949a-0800200c9a66" ∧
      (mkRearViewRadarService).disableCharacteristic =
        "6a4e3203-667b-11e3-949a-0800200c9a66" :=
  ⟨rfl, rfl, rfl⟩

/-- Claim C2, counterexample: for the payload [0, 1, 0, 2, 0, 0, 0, 0] the
bit-packed decoder emits one record whose distance field is the raw 6-bit
value 2, not 2 * 3.125 = 6.25 — the 3.125 scaling appears only in a debug
print, never in the emitted record. -/
theorem bryton_distance_scaling_cex :
    brytonParse [0, 1, 0, 2, 0, 0, 0, 0] =
      Except.ok [⟨none, 1, 0, 2⟩] ∧
      ((⟨none, 1, 0, 2⟩ : RadarMeasurement).distance : ℚ) ≠
        (threat_1_distance 2 : ℚ) * 3.125 := by
  refine ⟨rfl, ?_⟩
  have h2 : threat_1_distance 2 = 2 := by decide
  rw [h2]
  norm_num

/-- Claim C2, amended: the distance field of every emitted record equals the
slot's RAW 6-bit distance value, unscaled (slot 1's or slot 2's raw
extraction from the dist bytes); no 3.125 factor is applied to the record. -/
theorem bryton_record_distance_unscaled (data : List Nat)
    (rs : List RadarMeasurement) (h : brytonParse data = Except.ok rs)
    (r : RadarMeasurement) (hr : r ∈ rs) :
    r.distance = threat_1_distance (data.getD 3 0) ∨
      r.distance = threat_2_distance (data.getD 3 0) (data.getD 4 0) := by
  rw [brytonParse] at h
  split at h
  · simp at h
  · rw [Except.ok.injEq] at h
    subst h
    rcases List.mem_append.mp hr with h1 | h1
    · left
      split at h1
      · rw [List.mem_singleton] at h1
        subst h1
        rfl
      · exact absurd h1 (List.not_mem_nil r)
    · right
      split at h1
      · rw [List.mem_singleton] at h1
        subst h1
        rfl
      · exact absurd h1 (List.not_mem_nil r)

/-- Witness for the amended C2 at payload [0, 1, 0, 2, 0, 0, 0, 0] and its
single emitted record. -/
theorem bryton_record_distance_unscaled_witness :
    (⟨none, 1, 0, 2⟩ : RadarMeasurement).distance =
        threat_1_distance (([0, 1, 0, 2, 0, 0, 0, 0] : List Nat).getD 3 0) ∨
      (⟨none, 1, 0, 2⟩ : RadarMeasurement).distance =
        threat_2_distance (([0, 1, 0, 2, 0, 0, 0, 0] : List Nat).getD 3 0)
          (([0, 1, 0, 2, 0, 0, 0, 0] : List Nat).getD 4 0) :=
  bryton_record_distance_unscaled [0, 1, 0, 2, 0, 0, 0, 0] [⟨none, 1, 0, 2⟩]
    rfl ⟨none, 1, 0, 2⟩ (by decide)

/-- Claim C3, counterexample: for the payload [0, 1, 0, 0, 0, 0, 2, 0] the
bit-packed decoder emits one record whose speed field is the raw 4-bit value
2, not 2 * 3.04 * 3.6 = 21.888 — the 3.04 * 3.6 scaling appears only in a
debug print, never in the emitted record. -/
theorem bryton_speed_scaling_cex :
    brytonParse [0, 1, 0, 0, 0, 0, 2, 0] =
      Except.ok [⟨none, 1, 2, 0⟩] ∧
      ((⟨none, 1, 2, 0⟩ : RadarMeasurement).speed : ℚ) ≠
        (threat_1_speed 2 : ℚ) * 3.04 * 3.6 := by
  refine ⟨rfl, ?_⟩
  have h2 : threat_1_speed 2 = 2 := by decide
  rw [h2]
  norm_num

/-- Claim C3, amended: the speed field of every emitted record equals the
slot's RAW 4-bit speed value, unscaled (the low or high nibble of the
speed_1 byte for slots 1 and 2); no 3.04 * 3.6 factor is applied to the
record. -/
theorem bryton_record_speed_unscaled (data : List Nat)
    (rs : List RadarMeasurement) (h : brytonParse data = Except.ok rs)
    (r : RadarMeasurement) (hr : r ∈ rs) :
    r.speed = threat_1_speed (data.getD 6 0) ∨
      r.speed = threat_2_speed (data.getD 6 0) := by
  rw [brytonParse] at h
  split at h
  · simp at h
  · rw [Except.ok.injEq] at h
    subst h
    rcases List.mem_append.mp hr with h1 | h1
    · left
      split at h1
      · rw [List.mem_singleton] at h1
        subst h1
        rfl
      · exact absurd h1 (List.not_mem_nil r)
    · right
      split at h1
      · rw [List.mem_singleton] at h1
        subst h1
        rfl
      · exact absurd h1 (List.not_mem_nil r)

/-- Witness for the amended C3 at payload [0, 1, 0, 0, 0, 0, 2, 0] and its
single emitted record. -/
theorem bryton_record_speed_unscaled_witness :
    (⟨none, 1, 2, 0⟩ : RadarMeasurement).speed =
        threat_1_speed (([0, 1, 0, 0, 0, 0, 2, 0] : List Nat).getD 6 0) ∨
      (⟨none, 1, 2, 0⟩ : RadarMeasurement).speed =
        threat_2_speed (([0, 1, 0, 0, 0, 0, 2, 0] : List Nat).getD 6 0) :=
  bryton_record_speed_unscaled [0, 1, 0, 0, 0, 0, 2, 0] [⟨none, 1, 2, 0⟩]
    rfl ⟨none, 1, 2, 0⟩ (by decide)

/-- Claim C7: every record emitted by the bit-packed decoder has a nonzero
level; at most two records are emitted (slots 3 and 4 never produce one);
and when both surfaced slots have level 0 nothing is emitted. -/
theorem bryton_emitted_level_invariant (data : List Nat)
    (rs : List RadarMeasurement) (h : brytonParse data = Except.ok rs) :
    (∀ r ∈ rs, 0 < r.level) ∧ rs.length ≤ 2 ∧
      (threat_1_level (data.getD 1 0) = 0 →
        threat_2_level (data.getD 1 0) = 0 → rs = []) := by
  rw [brytonParse] at h
  split at h
  · simp at h
  · rw [Except.ok.injEq] at h
    subst h
    by_cases c1 : 0 < threat_1_level (data.getD 1 0) <;>
      by_cases c2 : 0 < threat_2_level (data.getD 1 0)
    · rw [if_pos c1, if_pos c2]
      refine ⟨?_, by simp, ?_⟩
      · intro r hr
        rcases List.mem_append.mp hr with h1 | h1
        · rw [List.mem_singleton] at h1
          subst h1
          exact c1
        · rw [List.mem_singleton] at h1
          subst h1
          exact c2
      · intro hz _
        omega
    · rw [if_pos c1, if_neg c2]
      refine ⟨?_, by simp, ?_⟩
      · intro r hr
        rw [List.append_nil, List.mem_singleton] at hr
        subst hr
        exact c1
      · intro hz _
        omega
    · rw [if_neg c1, if_pos c2]
      refine ⟨?_, by simp, ?_⟩
      · intro r hr
        rw [List.nil_append, List.mem_singleton] at hr
        subst hr
        exact c2
      · intro _ hz
        omega
    · rw [if_neg c1, if_neg c2]
      refine ⟨?_, by simp, fun _ _ => rfl⟩
      intro r hr
      simp at hr

/-- Witness for C7 at payload [0, 5, 0, 1, 2, 3, 4, 5], whose two emitted
records both have level 1. -/
theorem bryton_emitted_level_invariant_witness :
    0 < (⟨none, 1, 4, 1⟩ : RadarMeasurement).level ∧
      ([⟨none, 1, 4, 1⟩, ⟨none, 1, 0, 8⟩] : List RadarMeasurement).length ≤ 2 :=
  ⟨(bryton_emitted_level_invariant [0, 5, 0, 1, 2, 3, 4, 5]
      [⟨none, 1, 4, 1⟩, ⟨none, 1, 0, 8⟩] rfl).1 ⟨none, 1, 4, 1⟩ (by decide),
    (bryton_emitted_level_invariant [0, 5, 0, 1, 2, 3, 4, 5]
      [⟨none, 1, 4, 1⟩, ⟨none, 1, 0, 8⟩] rfl).2.1⟩

/-- Claim C8: for byte values below 256, the four raw distance extractions
equal the specified bit concatenations — slot 1 is the low 6 bits of dist1,
slot 2 is the top 2 bits of dist1 (as low bits) plus the low 4 bits of dist2
shifted up by 2, slot 3 is the top 4 bits of dist2 plus the low 2 bits of
dist3 shifted up by 4, and slot 4 is bits 2 to 7 of dist3. -/
theorem bryton_distance_bit_extraction (d1 d2 d3 : Nat)
    (h1 : d1 < 256) (h2 : d2 < 256) (h3 : d3 < 256) :
    threat_1_distance d1 = d1 % 64 ∧
      threat_2_distance d1 d2 = d1 / 64 + d2 % 16 * 4 ∧
      threat_3_distance d2 d3 = d2 / 16 + d3 % 4 * 16 ∧
      threat_4_distance d3 = d3 / 4 := by
  refine ⟨?_, ?_, ?_, ?_⟩
  · simp only [threat_1_distance, Nat.shiftRight_zero, and_sixtythree_eq_mod]
  · simp only [threat_2_distance, Nat.shiftRight_zero, shiftRight_six_eq_div,
      and_three_eq_mod, and_fifteen_eq_mod]
    rw [lor_shiftLeft_two_eq_add _ (Nat.mod_lt _ (by norm_num))
      _ (Nat.mod_lt _ (by norm_num))]
    omega
  · simp only [threat_3_distance, Nat.shiftRight_zero, shiftRight_four_eq_div,
      and_three_eq_mod, and_fifteen_eq_mod]
    rw [lor_shiftLeft_four_eq_add _ (Nat.mod_lt _ (by norm_num))
      _ (Nat.mod_lt _ (by norm_num))]
    omega
  · simp only [threat_4_distance, shiftRight_two_eq_div, and_sixtythree_eq_mod]
    omega

/-- Witness for C8 at dist bytes 200, 77, 9. -/
theorem bryton_distance_bit_extraction_witness :
    threat_1_distance 200 = 200 % 64 ∧
      threat_2_distance 200 77 = 200 / 64 + 77 % 16 * 4 ∧
      threat_3_distance 77 9 = 77 / 16 + 9 % 4 * 16 ∧
      threat_4_distance 9 = 9 / 4 :=
  bryton_distance_bit_extraction 200 77 9 (by decide) (by decide) (by decide)
